import Mathlib

/-!
Verification of the A2A (agent-to-agent) messaging and coordination core of
the `mcp-yfinance-agent` repository, shallowly embedded in Lean.

The embedding follows `src/a2a/a2a_protocol.py`, `src/a2a/a2a_adapter.py`
and `src/a2a/a2a_integration.py`.  JSON-compatible Python values (the
payloads and the dictionaries produced by `dataclasses.asdict`) are embedded
as the inductive `Json` below; Python `float`/`int` arithmetic is embedded
as exact rational arithmetic on `ℚ`; `datetime` objects appear in two
roles and are embedded accordingly: as calendar values (`PyDateTime`, for
`isoformat`/`fromisoformat`) and as points on a seconds timeline (`Int`,
for `timedelta` arithmetic).  The standard library codec pair
`json.dumps`/`json.loads` is modeled as the identity on the structured
value, so serialization operators are exposed at the `Json` level.
Nondeterministic inputs of the Python code (`uuid.uuid4()`,
`datetime.now()`, transport success, the eventually-observed resolution of
a pending request) are passed as explicit parameters.
-/

/-- A JSON-compatible Python value: `None`, `bool`, numbers (embedded as
exact rationals), `str`, `list`, and string-keyed `dict` (as an association
list in insertion order). -/
inductive Json where
  | null : Json
  | bool : Bool → Json
  | num : ℚ → Json
  | str : String → Json
  | arr : List Json → Json
  | obj : List (String × Json) → Json

/-- First value bound to key `k` in an association list (Python `dict`
lookup; `dict`s produced by the code at hand have distinct keys). -/
def lookupKey (k : String) : List (String × Json) → Option Json
  | [] => none
  | kv :: rest => if kv.1 = k then some kv.2 else lookupKey k rest

/-- Python `dict` item lookup `j[k]`, `none` when `j` is not a dict or the
key is missing. -/
def Json.lookup (j : Json) (k : String) : Option Json :=
  match j with
  | Json.obj fields => lookupKey k fields
  | _ => none

/-- A value read where Python arithmetic consumes a number.  Python `bool`
is an `int` subtype, so `True`/`False` count as `1`/`0`; everything
non-numeric raises a `TypeError`, modeled as `none`. -/
def Json.asNumber : Json → Option ℚ
  | Json.num q => some q
  | Json.bool b => some (if b then 1 else 0)
  | _ => none

/-- `MessageType` enum of `a2a_protocol.py`. -/
inductive MessageType where
  | request
  | response
  | error
  | heartbeat
  | registration
  | capability_query
  | capability_response
deriving DecidableEq

/-- The `.value` string of each `MessageType` member. -/
def MessageType.value : MessageType → String
  | .request => "request"
  | .response => "response"
  | .error => "error"
  | .heartbeat => "heartbeat"
  | .registration => "registration"
  | .capability_query => "capability_query"
  | .capability_response => "capability_response"

/-- The enum constructor call `MessageType(s)`: the member with value `s`,
`none` when `s` is not a member value (Python raises `ValueError`). -/
def MessageType.ofValue : String → Option MessageType
  | "request" => some .request
  | "response" => some .response
  | "error" => some .error
  | "heartbeat" => some .heartbeat
  | "registration" => some .registration
  | "capability_query" => some .capability_query
  | "capability_response" => some .capability_response
  | _ => none

/-- `Priority` enum of `a2a_protocol.py` (values 1–4). -/
inductive Priority where
  | low
  | normal
  | high
  | critical
deriving DecidableEq

/-- The `.value` of each `Priority` member: the Python ints 1,2,3,4
(embedded into the numeric domain ℚ of `Json.num`). -/
def Priority.value : Priority → ℚ
  | .low => 1
  | .normal => 2
  | .high => 3
  | .critical => 4

/-- The enum constructor call `Priority(v)`. -/
def Priority.ofValue (v : ℚ) : Option Priority :=
  if v = 1 then some .low
  else if v = 2 then some .normal
  else if v = 3 then some .high
  else if v = 4 then some .critical
  else none

/-- `AgentRole` enum of `a2a_protocol.py`. -/
inductive AgentRole where
  | investment_analyst
  | risk_assessor
  | portfolio_manager
  | market_researcher
  | news_analyzer
  | technical_analyst
  | fundamental_analyst
deriving DecidableEq

/-- The `.value` string of each `AgentRole` member. -/
def AgentRole.value : AgentRole → String
  | .investment_analyst => "investment_analyst"
  | .risk_assessor => "risk_assessor"
  | .portfolio_manager => "portfolio_manager"
  | .market_researcher => "market_researcher"
  | .news_analyzer => "news_analyzer"
  | .technical_analyst => "technical_analyst"
  | .fundamental_analyst => "fundamental_analyst"

/-- A Python `datetime` as a calendar value (naive, as produced by
`datetime.now()`): the components that `isoformat` prints. -/
structure PyDateTime where
  year : Nat
  month : Nat
  day : Nat
  hour : Nat
  minute : Nat
  second : Nat
  microsecond : Nat
deriving DecidableEq

/-- The component ranges enforced by the `datetime` constructor
(`MINYEAR = 1`, `MAXYEAR = 9999`, and the usual field bounds). -/
def PyDateTime.valid (d : PyDateTime) : Prop :=
  1 ≤ d.year ∧ d.year ≤ 9999 ∧ 1 ≤ d.month ∧ d.month ≤ 12 ∧
  1 ≤ d.day ∧ d.day ≤ 31 ∧ d.hour ≤ 23 ∧ d.minute ≤ 59 ∧
  d.second ≤ 59 ∧ d.microsecond ≤ 999999

instance (d : PyDateTime) : Decidable d.valid := by
  unfold PyDateTime.valid
  infer_instance

/-- The ASCII digit character for `n < 10`. -/
def digitChar (n : Nat) : Char := Char.ofNat (48 + n)

/-- Two-digit zero-padded decimal rendering (`%02d`) of `n < 100`. -/
def pad2 (n : Nat) : List Char := [digitChar (n / 10 % 10), digitChar (n % 10)]

/-- Four-digit zero-padded decimal rendering (`%04d`) of `n < 10000`. -/
def pad4 (n : Nat) : List Char := pad2 (n / 100) ++ pad2 (n % 100)

/-- Six-digit zero-padded decimal rendering (`%06d`) of `n < 1000000`. -/
def pad6 (n : Nat) : List Char := pad2 (n / 10000) ++ pad2 (n / 100 % 100) ++ pad2 (n % 100)

/-- Character list of `datetime.isoformat()`:
`YYYY-MM-DDTHH:MM:SS` followed by `.ffffff` exactly when the microsecond
component is nonzero. -/
def PyDateTime.isoformatChars (d : PyDateTime) : List Char :=
  pad4 d.year ++ '-' :: pad2 d.month ++ '-' :: pad2 d.day ++ 'T' :: pad2 d.hour ++
    ':' :: pad2 d.minute ++ ':' :: pad2 d.second ++
    (if d.microsecond = 0 then [] else '.' :: pad6 d.microsecond)

/-- `datetime.isoformat()`. -/
def PyDateTime.isoformat (d : PyDateTime) : String :=
  String.mk d.isoformatChars

/-- Numeric value of an ASCII digit character, `none` otherwise. -/
def parseDigit (c : Char) : Option Nat :=
  if 48 ≤ c.toNat ∧ c.toNat ≤ 57 then some (c.toNat - 48) else none

/-- Parse a two-digit decimal field. -/
def parse2 : List Char → Option (Nat × List Char)
  | a :: b :: rest =>
    match parseDigit a, parseDigit b with
    | some x, some y => some (10 * x + y, rest)
    | _, _ => none
  | _ => none

/-- Parse a four-digit decimal field. -/
def parse4 (cs : List Char) : Option (Nat × List Char) := do
  let (x, cs) ← parse2 cs
  let (y, cs) ← parse2 cs
  some (100 * x + y, cs)

/-- Parse a six-digit decimal field. -/
def parse6 (cs : List Char) : Option (Nat × List Char) := do
  let (x, cs) ← parse2 cs
  let (y, cs) ← parse2 cs
  let (z, cs) ← parse2 cs
  some (10000 * x + 100 * y + z, cs)

/-- Require a literal character. -/
def expectChar (c : Char) : List Char → Option (List Char)
  | a :: rest => if a = c then some rest else none
  | [] => none

/-- Parser underlying `datetime.fromisoformat` on the canonical format
that `isoformat` emits (date, `T`, time, optional 6-digit fraction). -/
def fromisoformatChars (cs : List Char) : Option PyDateTime :=
  match parse4 cs with
  | none => none
  | some (y, cs) =>
  match expectChar '-' cs with
  | none => none
  | some cs =>
  match parse2 cs with
  | none => none
  | some (mo, cs) =>
  match expectChar '-' cs with
  | none => none
  | some cs =>
  match parse2 cs with
  | none => none
  | some (da, cs) =>
  match expectChar 'T' cs with
  | none => none
  | some cs =>
  match parse2 cs with
  | none => none
  | some (h, cs) =>
  match expectChar ':' cs with
  | none => none
  | some cs =>
  match parse2 cs with
  | none => none
  | some (mi, cs) =>
  match expectChar ':' cs with
  | none => none
  | some cs =>
  match parse2 cs with
  | none => none
  | some (s, cs) =>
  match cs with
  | [] => some ⟨y, mo, da, h, mi, s, 0⟩
  | '.' :: cs2 =>
    match parse6 cs2 with
    | some (us, []) => some ⟨y, mo, da, h, mi, s, us⟩
    | _ => none
  | _ => none

/-- `datetime.fromisoformat(s)`; `none` models the `ValueError` raised on a
string that is not in the supported format. -/
def PyDateTime.fromisoformat (s : String) : Option PyDateTime :=
  fromisoformatChars s.data

theorem parseDigit_digitChar : ∀ n, n < 10 → parseDigit (digitChar n) = some n := by
  decide

theorem parse2_pad2 (n : Nat) (h : n < 100) (rest : List Char) :
    parse2 (pad2 n ++ rest) = some (n, rest) := by
  have h1 : n / 10 % 10 < 10 := Nat.mod_lt _ (by norm_num)
  have h2 : n % 10 < 10 := Nat.mod_lt _ (by norm_num)
  simp only [pad2, List.cons_append, List.nil_append, parse2,
    parseDigit_digitChar _ h1, parseDigit_digitChar _ h2]
  have : 10 * (n / 10 % 10) + n % 10 = n := by omega
  rw [this]

theorem parse4_pad4 (n : Nat) (h : n < 10000) (rest : List Char) :
    parse4 (pad4 n ++ rest) = some (n, rest) := by
  have h1 : n / 100 < 100 := by omega
  have h2 : n % 100 < 100 := Nat.mod_lt _ (by norm_num)
  simp only [pad4, List.append_assoc, parse4, parse2_pad2 _ h1, parse2_pad2 _ h2,
    Option.bind_eq_bind, Option.some_bind]
  have : 100 * (n / 100) + n % 100 = n := by omega
  rw [this]

theorem parse6_pad6 (n : Nat) (h : n < 1000000) (rest : List Char) :
    parse6 (pad6 n ++ rest) = some (n, rest) := by
  have h1 : n / 10000 < 100 := by omega
  have h2 : n / 100 % 100 < 100 := Nat.mod_lt _ (by norm_num)
  have h3 : n % 100 < 100 := Nat.mod_lt _ (by norm_num)
  simp only [pad6, List.append_assoc, parse6, parse2_pad2 _ h1, parse2_pad2 _ h2,
    parse2_pad2 _ h3, Option.bind_eq_bind, Option.some_bind]
  have : 10000 * (n / 10000) + 100 * (n / 100 % 100) + n % 100 = n := by omega
  rw [this]

theorem parse6_pad6_nil (n : Nat) (h : n < 1000000) :
    parse6 (pad6 n) = some (n, []) := by
  have := parse6_pad6 n h []
  simpa using this

theorem fromisoformat_isoformat (d : PyDateTime) (h : d.valid) :
    PyDateTime.fromisoformat d.isoformat = some d := by
  obtain ⟨y, mo, da, hr, mi, s, us⟩ := d
  simp only [PyDateTime.valid] at h
  obtain ⟨h1, h2, h3, h4, h5, h6, h7, h8, h9, h10⟩ := h
  have hy : y < 10000 := by omega
  have hmo : mo < 100 := by omega
  have hda : da < 100 := by omega
  have hh : hr < 100 := by omega
  have hmi : mi < 100 := by omega
  have hs : s < 100 := by omega
  have hus : us < 1000000 := by omega
  unfold PyDateTime.fromisoformat PyDateTime.isoformat PyDateTime.isoformatChars
  by_cases hz : us = 0
  · subst hz
    simp only [if_pos rfl, fromisoformatChars, List.append_assoc, List.cons_append,
      parse4_pad4 _ hy, parse2_pad2 _ hmo, parse2_pad2 _ hda, parse2_pad2 _ hh,
      parse2_pad2 _ hmi, parse2_pad2 _ hs, expectChar, eq_self_iff_true, if_true]
  · rw [if_neg hz]
    simp only [fromisoformatChars, List.append_assoc, List.cons_append,
      parse4_pad4 _ hy, parse2_pad2 _ hmo, parse2_pad2 _ hda, parse2_pad2 _ hh,
      parse2_pad2 _ hmi, parse2_pad2 _ hs, parse6_pad6_nil _ hus, expectChar,
      eq_self_iff_true, if_true]

/-- Encoding of an `Optional[str]` dataclass field under `asdict`
(Python `None` becomes JSON null). -/
def optStr : Option String → Json
  | none => Json.null
  | some s => Json.str s

/-- Encoding of an `Optional[Dict]` dataclass field under `asdict`. -/
def optJson : Option Json → Json
  | none => Json.null
  | some j => j

/-- The `A2AMessage` dataclass of `a2a_protocol.py`. -/
structure A2AMessage where
  message_id : String
  sender_id : String
  receiver_id : String
  message_type : MessageType
  priority : Priority
  timestamp : PyDateTime
  payload : Json
  correlation_id : Option String
  expires_at : Option PyDateTime

/-- `A2AMessage.to_dict`: `asdict(self)` in dataclass field order, with
`timestamp` replaced by `isoformat`, the enums by their `.value`, and
`expires_at` by its ISO string exactly when it is set (a `None` stays
null). -/
def A2AMessage.to_dict (m : A2AMessage) : Json :=
  Json.obj [
    ("message_id", Json.str m.message_id),
    ("sender_id", Json.str m.sender_id),
    ("receiver_id", Json.str m.receiver_id),
    ("message_type", Json.str m.message_type.value),
    ("priority", Json.num m.priority.value),
    ("timestamp", Json.str m.timestamp.isoformat),
    ("payload", m.payload),
    ("correlation_id", optStr m.correlation_id),
    ("expires_at", match m.expires_at with
      | none => Json.null
      | some e => Json.str e.isoformat)]

/-- Keyword-argument names accepted by the `A2AMessage` dataclass
constructor; `cls(**data)` raises `TypeError` on any other key. -/
def A2AMessage.fieldNames : List String :=
  ["message_id", "sender_id", "receiver_id", "message_type", "priority",
   "timestamp", "payload", "correlation_id", "expires_at"]

/-- Decode a required string field. -/
def getStrField (fields : List (String × Json)) (k : String) : Option String :=
  match lookupKey k fields with
  | some (Json.str s) => some s
  | _ => none

/-- Decode an optional string field (absent or `None` → `none`); any other
non-string value is rejected, since the embedding decodes only envelopes
conforming to the typed `A2AMessage` fields. -/
def getOptStrField (fields : List (String × Json)) (k : String) :
    Option (Option String) :=
  match lookupKey k fields with
  | none => some none
  | some Json.null => some none
  | some (Json.str s) => some (some s)
  | some _ => none

/-- Decode the optional `expires_at` field: `from_dict` converts it with
`fromisoformat` exactly when `data.get('expires_at')` is truthy. -/
def getOptDateTimeField (fields : List (String × Json)) (k : String) :
    Option (Option PyDateTime) :=
  match lookupKey k fields with
  | none => some none
  | some Json.null => some none
  | some (Json.str s) =>
    match PyDateTime.fromisoformat s with
    | some d => some (some d)
    | none => none
  | some _ => none

/-- `A2AMessage.from_dict`: converts the `message_type`, `priority` and
timestamp entries through the enum constructors and `fromisoformat`
(a failing conversion raises, modeled as `none`), then calls
`cls(**data)`, which requires every key to be a dataclass field name. -/
def A2AMessage.from_dict (j : Json) : Option A2AMessage :=
  match j with
  | Json.obj fields =>
    if fields.all (fun kv => A2AMessage.fieldNames.contains kv.1) then
      match getStrField fields "message_id", getStrField fields "sender_id",
            getStrField fields "receiver_id" with
      | some mid, some sid, some rid =>
        match lookupKey "message_type" fields, lookupKey "priority" fields,
              lookupKey "timestamp" fields, lookupKey "payload" fields with
        | some (Json.str mtv), some (Json.num pv), some (Json.str tsv), some payload =>
          match MessageType.ofValue mtv, Priority.ofValue pv,
                PyDateTime.fromisoformat tsv with
          | some mt, some p, some ts =>
            match getOptStrField fields "correlation_id",
                  getOptDateTimeField fields "expires_at" with
            | some corr, some exp =>
              some ⟨mid, sid, rid, mt, p, ts, payload, corr, exp⟩
            | _, _ => none
          | _, _, _ => none
        | _, _, _, _ => none
      | _, _, _ => none
    else none
  | _ => none

/-- The `AgentCapability` dataclass. -/
structure AgentCapability where
  role : AgentRole
  capabilities : List String
  supported_tickers : List String
  supported_timeframes : List String
  max_concurrent_requests : Int
  response_time_avg : ℚ
  version : String

/-- `asdict(capabilities)` as carried in the registration payload (the
`role` member is carried here by its value string; `asdict` keeps the enum
object itself, which matters only if the payload were serialized further —
no claim inspects it). -/
def AgentCapability.asdict (c : AgentCapability) : Json :=
  Json.obj [
    ("role", Json.str c.role.value),
    ("capabilities", Json.arr (c.capabilities.map Json.str)),
    ("supported_tickers", Json.arr (c.supported_tickers.map Json.str)),
    ("supported_timeframes", Json.arr (c.supported_timeframes.map Json.str)),
    ("max_concurrent_requests", Json.num c.max_concurrent_requests),
    ("response_time_avg", Json.num c.response_time_avg),
    ("version", Json.str c.version)]

/-- The `A2AProtocol` class state. -/
structure A2AProtocol where
  agent_id : String
  agent_role : AgentRole
  capabilities : Option AgentCapability

/-- `create_message`: builds the envelope.  `uuid.uuid4()` and
`datetime.now()` are nondeterministic, passed as the `message_id` and
`now` parameters; `expires_at` is never set by the factory. -/
def A2AProtocol.create_message (p : A2AProtocol) (receiver_id : String)
    (message_type : MessageType) (payload : Json) (priority : Priority)
    (correlation_id : Option String) (message_id : String) (now : PyDateTime) :
    A2AMessage :=
  ⟨message_id, p.agent_id, receiver_id, message_type, priority, now, payload,
    correlation_id, none⟩

/-- The `StockAnalysisRequest` dataclass. -/
structure StockAnalysisRequest where
  ticker : String
  analysis_type : String
  timeframe : String
  user_profile : Option Json
  additional_context : Option Json

/-- `asdict` of a stock-analysis request. -/
def StockAnalysisRequest.asdict (r : StockAnalysisRequest) : Json :=
  Json.obj [
    ("ticker", Json.str r.ticker),
    ("analysis_type", Json.str r.analysis_type),
    ("timeframe", Json.str r.timeframe),
    ("user_profile", optJson r.user_profile),
    ("additional_context", optJson r.additional_context)]

/-- The `PortfolioAnalysisRequest` dataclass. -/
structure PortfolioAnalysisRequest where
  user_id : String
  portfolio_data : Json
  analysis_goals : List String
  constraints : Option Json

/-- `asdict` of a portfolio-analysis request. -/
def PortfolioAnalysisRequest.asdict (r : PortfolioAnalysisRequest) : Json :=
  Json.obj [
    ("user_id", Json.str r.user_id),
    ("portfolio_data", r.portfolio_data),
    ("analysis_goals", Json.arr (r.analysis_goals.map Json.str)),
    ("constraints", optJson r.constraints)]

/-- The `RiskEventRequest` dataclass. -/
structure RiskEventRequest where
  ticker : String
  event_sources : List String
  time_horizon : String
  severity_threshold : String

/-- `asdict` of a risk-event request. -/
def RiskEventRequest.asdict (r : RiskEventRequest) : Json :=
  Json.obj [
    ("ticker", Json.str r.ticker),
    ("event_sources", Json.arr (r.event_sources.map Json.str)),
    ("time_horizon", Json.str r.time_horizon),
    ("severity_threshold", Json.str r.severity_threshold)]

/-- `create_stock_analysis_request`: wraps the request record as payload,
priority forced to High. -/
def A2AProtocol.create_stock_analysis_request (p : A2AProtocol)
    (receiver_id ticker analysis_type timeframe : String)
    (user_profile : Option Json) (message_id : String) (now : PyDateTime) :
    A2AMessage :=
  p.create_message receiver_id MessageType.request
    (StockAnalysisRequest.asdict ⟨ticker, analysis_type, timeframe, user_profile, none⟩)
    Priority.high none message_id now

/-- `create_portfolio_analysis_request`. -/
def A2AProtocol.create_portfolio_analysis_request (p : A2AProtocol)
    (receiver_id user_id : String) (portfolio_data : Json)
    (analysis_goals : List String) (message_id : String) (now : PyDateTime) :
    A2AMessage :=
  p.create_message receiver_id MessageType.request
    (PortfolioAnalysisRequest.asdict ⟨user_id, portfolio_data, analysis_goals, none⟩)
    Priority.high none message_id now

/-- `create_risk_analysis_request`; `event_sources=None` defaults to the
three standard sources, `severity_threshold` is fixed to `"medium"`. -/
def A2AProtocol.create_risk_analysis_request (p : A2AProtocol)
    (receiver_id ticker : String) (event_sources : Option (List String))
    (time_horizon : String) (message_id : String) (now : PyDateTime) :
    A2AMessage :=
  p.create_message receiver_id MessageType.request
    (RiskEventRequest.asdict
      ⟨ticker, event_sources.getD ["news", "financial_reports", "market_data"],
        time_horizon, "medium"⟩)
    Priority.high none message_id now

/-- `create_response`: a Response envelope answering `original_message`. -/
def A2AProtocol.create_response (p : A2AProtocol) (original_message : A2AMessage)
    (response_data : Json) (message_id : String) (now : PyDateTime) : A2AMessage :=
  ⟨message_id, p.agent_id, original_message.sender_id, MessageType.response,
    original_message.priority, now, response_data, some original_message.message_id,
    none⟩

/-- `create_error_response`: an Error envelope answering
`original_message`, priority forced to High, payload echoing the original
request. -/
def A2AProtocol.create_error_response (p : A2AProtocol)
    (original_message : A2AMessage) (error_message error_code : String)
    (message_id : String) (now : PyDateTime) : A2AMessage :=
  ⟨message_id, p.agent_id, original_message.sender_id, MessageType.error,
    Priority.high, now,
    Json.obj [
      ("error_code", Json.str error_code),
      ("error_message", Json.str error_message),
      ("original_request", original_message.payload)],
    some original_message.message_id, none⟩

/-- `serialize_message`: `json.dumps(message.to_dict(), ...)`.  The stdlib
`dumps` is modeled as the identity on the structured value, so the wire
text is exposed as the dict itself. -/
def A2AProtocol.serialize_message (_p : A2AProtocol) (message : A2AMessage) : Json :=
  message.to_dict

/-- `deserialize_message`: `A2AMessage.from_dict(json.loads(s))`, with
`loads` likewise modeled as the identity on the structured value. -/
def A2AProtocol.deserialize_message (_p : A2AProtocol) (j : Json) : Option A2AMessage :=
  A2AMessage.from_dict j

/-- `get_registration_message`: requires registered capabilities (raises
otherwise, modeled as `none`). -/
def A2AProtocol.get_registration_message (p : A2AProtocol)
    (message_id : String) (now : PyDateTime) : Option A2AMessage :=
  match p.capabilities with
  | none => none
  | some caps =>
    some (p.create_message "registry" MessageType.registration caps.asdict
      Priority.normal none message_id now)

theorem messageType_ofValue_value (t : MessageType) :
    MessageType.ofValue t.value = some t := by
  cases t <;> rfl

theorem priority_ofValue_value (p : Priority) :
    Priority.ofValue p.value = some p := by
  cases p <;> rfl

/-- C1: for every envelope constructible by the protocol factory (any
kind, priority, payload, with or without correlation id and expiry, with
`datetime`-constructible timestamps), `deserialize_message` of
`serialize_message` returns the envelope, field for field, including the
enum members and the creation/expiry timestamps. -/
theorem C1_serialize_roundtrip (p : A2AProtocol) (m : A2AMessage)
    (hts : m.timestamp.valid) (hexp : ∀ e, m.expires_at = some e → e.valid) :
    p.deserialize_message (p.serialize_message m) = some m := by
  obtain ⟨mid, sid, rid, mt, pr, ts, payload, corr, exp⟩ := m
  have hts' : ts.valid := hts
  cases corr with
  | none =>
    cases exp with
    | none =>
      simp [A2AProtocol.deserialize_message, A2AProtocol.serialize_message,
        A2AMessage.to_dict, A2AMessage.from_dict, A2AMessage.fieldNames, lookupKey,
        getStrField, getOptStrField, getOptDateTimeField, optStr,
        messageType_ofValue_value, priority_ofValue_value,
        fromisoformat_isoformat _ hts']
    | some e =>
      have he : e.valid := hexp e rfl
      simp [A2AProtocol.deserialize_message, A2AProtocol.serialize_message,
        A2AMessage.to_dict, A2AMessage.from_dict, A2AMessage.fieldNames, lookupKey,
        getStrField, getOptStrField, getOptDateTimeField, optStr,
        messageType_ofValue_value, priority_ofValue_value,
        fromisoformat_isoformat _ hts', fromisoformat_isoformat _ he]
  | some c =>
    cases exp with
    | none =>
      simp [A2AProtocol.deserialize_message, A2AProtocol.serialize_message,
        A2AMessage.to_dict, A2AMessage.from_dict, A2AMessage.fieldNames, lookupKey,
        getStrField, getOptStrField, getOptDateTimeField, optStr,
        messageType_ofValue_value, priority_ofValue_value,
        fromisoformat_isoformat _ hts']
    | some e =>
      have he : e.valid := hexp e rfl
      simp [A2AProtocol.deserialize_message, A2AProtocol.serialize_message,
        A2AMessage.to_dict, A2AMessage.from_dict, A2AMessage.fieldNames, lookupKey,
        getStrField, getOptStrField, getOptDateTimeField, optStr,
        messageType_ofValue_value, priority_ofValue_value,
        fromisoformat_isoformat _ hts', fromisoformat_isoformat _ he]

/-- C1 witness: the round trip at a concrete envelope with a correlation
id, an expiry with nonzero microseconds, and a structured payload. -/
theorem C1_serialize_roundtrip_witness :
    (A2AProtocol.mk "investment_agent_001" AgentRole.investment_analyst
        none).deserialize_message
      ((A2AProtocol.mk "investment_agent_001" AgentRole.investment_analyst
        none).serialize_message
        ⟨"m-1", "investment_agent_001", "risk_agent_001", MessageType.request,
          Priority.high, ⟨2025, 10, 12, 23, 59, 58, 123456⟩,
          Json.obj [("ticker", Json.str "AAPL")], some "c-1",
          some ⟨2025, 10, 13, 0, 0, 0, 0⟩⟩) =
      some ⟨"m-1", "investment_agent_001", "risk_agent_001", MessageType.request,
        Priority.high, ⟨2025, 10, 12, 23, 59, 58, 123456⟩,
        Json.obj [("ticker", Json.str "AAPL")], some "c-1",
        some ⟨2025, 10, 13, 0, 0, 0, 0⟩⟩ :=
  C1_serialize_roundtrip _ _ (by decide) (by intro e he; cases he; decide)

/-- C2: every reply built by `create_response` or `create_error_response`
carries the original sender as receiver and the original message id as
correlation id; `create_response` inherits the original priority, while
`create_error_response` forces priority High and kind Error. -/
theorem C2_reply_correlation (p : A2AProtocol) (orig : A2AMessage)
    (response_data : Json) (error_message error_code mid mid' : String)
    (now now' : PyDateTime) :
    (p.create_response orig response_data mid now).correlation_id =
        some orig.message_id ∧
    (p.create_response orig response_data mid now).receiver_id = orig.sender_id ∧
    (p.create_response orig response_data mid now).priority = orig.priority ∧
    (p.create_error_response orig error_message error_code mid' now').correlation_id =
        some orig.message_id ∧
    (p.create_error_response orig error_message error_code mid' now').receiver_id =
        orig.sender_id ∧
    (p.create_error_response orig error_message error_code mid' now').priority =
        Priority.high ∧
    (p.create_error_response orig error_message error_code mid' now').message_type =
        MessageType.error :=
  ⟨rfl, rfl, rfl, rfl, rfl, rfl, rfl⟩

/-- The WebSocket frame written by `WebSocketTransport.send_message`:
`message.sender_id + ":" + json.dumps(message.to_dict())`.  The frame is
modeled structurally: the text before the first colon and the structured
value of the JSON text after it. -/
structure WireFrame where
  senderTag : String
  envelopeJson : Json

/-- The frame `send_message` writes for an envelope (when the connection
is open; otherwise nothing is sent and `send_message` returns `False`). -/
def WebSocketTransport.sentFrame (message : A2AMessage) : WireFrame :=
  ⟨message.sender_id, message.to_dict⟩

/-- C6 counterexample: the serialized form of a concrete envelope carries
`priority` as the raw integer enum value 2, not as an explicit string tag,
refuting the claim that both enums travel as string tags. -/
theorem C6_counterexample :
    (WebSocketTransport.sentFrame
        ⟨"m-6", "investment_agent_001", "risk_agent_001", MessageType.request,
          Priority.normal, ⟨2025, 1, 2, 3, 4, 5, 0⟩, Json.obj [], none,
          none⟩).envelopeJson.lookup "priority" = some (Json.num 2) ∧
    ¬ ∃ s : String,
      (WebSocketTransport.sentFrame
        ⟨"m-6", "investment_agent_001", "risk_agent_001", MessageType.request,
          Priority.normal, ⟨2025, 1, 2, 3, 4, 5, 0⟩, Json.obj [], none,
          none⟩).envelopeJson.lookup "priority" = some (Json.str s) := by
  constructor
  · rfl
  · rintro ⟨s, hs⟩
    simp [WebSocketTransport.sentFrame, A2AMessage.to_dict, Json.lookup,
      lookupKey, Priority.value] at hs

/-- C6 amended: the stream-transport frame is the sender id before the
colon and the serialized envelope after it; the serialized envelope
carries the kind as its explicit string tag, the priority as its raw
integer enum value (1–4), and the creation/expiry timestamps as ISO-8601
strings. -/
theorem C6_wire_format (m : A2AMessage) :
    (WebSocketTransport.sentFrame m).senderTag = m.sender_id ∧
    (WebSocketTransport.sentFrame m).envelopeJson = m.to_dict ∧
    (WebSocketTransport.sentFrame m).envelopeJson.lookup "message_type" =
      some (Json.str m.message_type.value) ∧
    (WebSocketTransport.sentFrame m).envelopeJson.lookup "priority" =
      some (Json.num m.priority.value) ∧
    (WebSocketTransport.sentFrame m).envelopeJson.lookup "timestamp" =
      some (Json.str m.timestamp.isoformat) ∧
    (WebSocketTransport.sentFrame m).envelopeJson.lookup "expires_at" =
      some (match m.expires_at with
        | none => Json.null
        | some e => Json.str e.isoformat) := by
  refine ⟨rfl, rfl, ?_, ?_, ?_, ?_⟩ <;>
    simp [WebSocketTransport.sentFrame, A2AMessage.to_dict, Json.lookup, lookupKey]

/-- The quote character `chr(39)` used by Python `repr` around nested
strings. -/
def quoteChar : Char := Char.ofNat 39

/-- Decimal-ish rendering of an exact rational; Python renders floats in
decimal, but every rendering of a number consists of digits and
separators only, which is all the confidence-mapping containment test can
observe. -/
def pyNumRepr (q : ℚ) : String :=
  if q.den = 1 then toString q.num else toString q.num ++ "/" ++ toString q.den

mutual

/-- Python `repr()` of a JSON-decoded value (no escaping inside nested
strings, which none of the code at hand exercises). -/
def pyRepr : Json → String
  | Json.null => "None"
  | Json.bool true => "True"
  | Json.bool false => "False"
  | Json.num q => pyNumRepr q
  | Json.str s => String.singleton quoteChar ++ s ++ String.singleton quoteChar
  | Json.arr xs => "[" ++ String.intercalate ", " (pyReprList xs) ++ "]"
  | Json.obj kvs => "\x7b" ++ String.intercalate ", " (pyReprFields kvs) ++ "\x7d"

/-- `repr` of the elements of a list. -/
def pyReprList : List Json → List String
  | [] => []
  | j :: rest => pyRepr j :: pyReprList rest

/-- `repr` of the items of a dict. -/
def pyReprFields : List (String × Json) → List String
  | [] => []
  | (k, v) :: rest =>
    (String.singleton quoteChar ++ k ++ String.singleton quoteChar ++ ": " ++ pyRepr v) ::
      pyReprFields rest

end

/-- Python `str()` of a JSON-decoded value: a string is itself, anything
else renders like `repr`. -/
def pyStr : Json → String
  | Json.str s => s
  | j => pyRepr j

/-- Python `str.lower()` (character-wise). -/
def strLower (s : String) : String := String.mk (s.data.map Char.toLower)

/-- Helper for substring containment: does `hay` start with `pat`? -/
def startsWithChars : List Char → List Char → Bool
  | [], _ => true
  | _ :: _, [] => false
  | p :: ps, c :: cs => p = c && startsWithChars ps cs

/-- Substring containment on character lists. -/
def containsChars (pat : List Char) : List Char → Bool
  | [] => startsWithChars pat []
  | c :: cs => startsWithChars pat (c :: cs) || containsChars pat cs

/-- The Python substring test `needle in hay`. -/
def strContains (needle hay : String) : Bool := containsChars needle.data hay.data

/-- The three keyed slots of the `results` dict a collaborative analysis
can fill; a slot is `none` when that branch failed, timed out, or was not
launched.  Branch results are arbitrary decoded payloads. -/
structure CollabResults where
  investment : Option Json
  risk : Option Json
  portfolio : Option Json

/-- `list(results.keys())`: the branches resolve into the dict in task
order investment, risk, portfolio. -/
def CollabResults.agentsUsed (r : CollabResults) : List String :=
  (match r.investment with | some _ => ["investment"] | none => []) ++
  (match r.risk with | some _ => ["risk"] | none => []) ++
  (match r.portfolio with | some _ => ["portfolio"] | none => [])

/-- `list(results.values())` in the same insertion order. -/
def CollabResults.items (r : CollabResults) : List Json :=
  (match r.investment with | some j => [j] | none => []) ++
  (match r.risk with | some j => [j] | none => []) ++
  (match r.portfolio with | some j => [j] | none => [])

/-- One iteration of the accumulation loop of
`_calculate_confidence_score` over `(total_confidence, count)`: a
non-dict result is skipped; a present `confidence_score` is added and
counted when numeric and raises otherwise (modeled as `none`); otherwise
a present `confidence` is mapped through the high/medium/low containment
chain on its lowercased `str()` (an unmatched string adds 0) and
counted. -/
def confidenceStep (acc : ℚ × Nat) (result : Json) : Option (ℚ × Nat) :=
  match result with
  | Json.obj fields =>
    match lookupKey "confidence_score" fields with
    | some v =>
      match v.asNumber with
      | some q => some (acc.1 + q, acc.2 + 1)
      | none => none
    | none =>
      match lookupKey "confidence" fields with
      | some v =>
        let contrib : ℚ :=
          if strContains "high" (strLower (pyStr v)) then 0.8
          else if strContains "medium" (strLower (pyStr v)) then 0.6
          else if strContains "low" (strLower (pyStr v)) then 0.4
          else 0
        some (acc.1 + contrib, acc.2 + 1)
      | none => some acc
  | _ => some acc

/-- `_calculate_confidence_score`: `0.0` on an empty result dict, else the
accumulated total divided by the count, defaulting to `0.5` when no agent
was counted. -/
def A2AIntegrationManager.calculate_confidence_score (results : CollabResults) :
    Option ℚ :=
  if results.items.isEmpty then some 0
  else
    match results.items.foldlM confidenceStep ((0 : ℚ), (0 : Nat)) with
    | none => none
    | some (total, count) =>
      if count > 0 then some (total / (count : ℚ)) else some 0.5

/-- The reasoning text attached to a generated recommendation, by its
template (the rendered Korean strings carry exactly these parameters). -/
inductive RecReasoning where
  | scoreBased : ℚ → RecReasoning
  | riskLevelDetected : String → RecReasoning
  | investmentAgent : RecReasoning

/-- One generated recommendation record: `action`, `confidence`, the
`score` entry (present only on the threshold recommendation), and the
reasoning template. -/
structure Recommendation where
  action : Json
  confidence : Json
  score : Option ℚ
  reasoning : RecReasoning

/-- `_generate_integrated_recommendations`: the threshold recommendation
(≥70 STRONG_BUY/HIGH, ≥50 BUY/MEDIUM, ≥30 HOLD/MEDIUM, else SELL/HIGH),
then REDUCE_POSITION when the risk level is high or critical, then the
investment-side recommendation entries copied with default confidence
MEDIUM. -/
def A2AIntegrationManager.generate_integrated_recommendations (score : ℚ)
    (risk_data investment_data : Json) : List Recommendation :=
  let base : Recommendation :=
    if score ≥ 70 then
      ⟨Json.str "STRONG_BUY", Json.str "HIGH", some score, RecReasoning.scoreBased score⟩
    else if score ≥ 50 then
      ⟨Json.str "BUY", Json.str "MEDIUM", some score, RecReasoning.scoreBased score⟩
    else if score ≥ 30 then
      ⟨Json.str "HOLD", Json.str "MEDIUM", some score, RecReasoning.scoreBased score⟩
    else
      ⟨Json.str "SELL", Json.str "HIGH", some score, RecReasoning.scoreBased score⟩
  let riskRecs : List Recommendation :=
    match risk_data.lookup "risk_level" with
    | some (Json.str lv) =>
      if lv = "high" ∨ lv = "critical" then
        [⟨Json.str "REDUCE_POSITION", Json.str "HIGH", none,
          RecReasoning.riskLevelDetected lv⟩]
      else []
    | _ => []
  let invRecs : List Recommendation :=
    match investment_data.lookup "recommendations" with
    | some (Json.arr recs) =>
      recs.filterMap fun rec =>
        match rec with
        | Json.obj fields =>
          match lookupKey "recommendation" fields with
          | some v =>
            some ⟨v, (lookupKey "confidence" fields).getD (Json.str "MEDIUM"), none,
              RecReasoning.investmentAgent⟩
          | none => none
        | _ => none
    | _ => []
  base :: (riskRecs ++ invRecs)

/-- The investment contribution to the integrated score: when the branch
answered and carries `overall_score`, add `overall_score * 0.4` (raising,
i.e. `none`, on a non-numeric value). -/
def investmentScoreStep (investment : Option Json) (s : ℚ) : Option ℚ :=
  match investment with
  | some inv =>
    match inv.lookup "overall_score" with
    | some v =>
      match v.asNumber with
      | some q => some (s + q * 0.4)
      | none => none
    | none => some s
  | none => some s

/-- The risk contribution: when the branch answered and carries
`overall_risk_score`, subtract the penalty `(100 - overall_risk_score) *
0.3` — no clamp below zero. -/
def riskScoreStep (risk : Option Json) (s : ℚ) : Option ℚ :=
  match risk with
  | some rd =>
    match rd.lookup "overall_risk_score" with
    | some v =>
      match v.asNumber with
      | some q => some (s - (100 - q) * 0.3)
      | none => none
    | none => some s
  | none => some s

/-- The portfolio contribution: when the branch answered and carries
`overall_score`, add `overall_score * 0.3`. -/
def portfolioScoreStep (portfolio : Option Json) (s : ℚ) : Option ℚ :=
  match portfolio with
  | some pd =>
    match pd.lookup "overall_score" with
    | some v =>
      match v.asNumber with
      | some q => some (s + q * 0.3)
      | none => none
    | none => some s
  | none => some s

/-- The `integrated_score` accumulation of `_integrate_analysis_results`,
in source order: start at 0, investment, then risk, then portfolio. -/
def integratedScore (results : CollabResults) : Option ℚ :=
  match investmentScoreStep results.investment 0 with
  | none => none
  | some s1 =>
    match riskScoreStep results.risk s1 with
    | none => none
    | some s2 => portfolioScoreStep results.portfolio s2

/-- The aggregated analysis record built by `_integrate_analysis_results`
(`analysis_type` is the constant "collaborative"). -/
structure IntegratedAnalysis where
  ticker : String
  timestamp : String
  analysis_type : String
  agents_used : List String
  integrated_score : ℚ
  recommendations : List Recommendation
  risk_assessment : Json
  investment_analysis : Json
  portfolio_impact : Json
  confidence_score : ℚ

/-- `_integrate_analysis_results`: fills the per-domain sub-results (the
initial `{}` stands where a branch is absent), accumulates the integrated
score, generates the recommendations from it, and computes the confidence
score; `none` models a `TypeError` raised on a non-numeric score or
confidence value. -/
def A2AIntegrationManager.integrate_analysis_results (ticker : String)
    (now : PyDateTime) (results : CollabResults) : Option IntegratedAnalysis :=
  match integratedScore results with
  | none => none
  | some score =>
    let risk_assessment := results.risk.getD (Json.obj [])
    let investment_analysis := results.investment.getD (Json.obj [])
    let portfolio_impact := results.portfolio.getD (Json.obj [])
    match A2AIntegrationManager.calculate_confidence_score results with
    | none => none
    | some conf =>
      some ⟨ticker, now.isoformat, "collaborative", results.agentsUsed, score,
        A2AIntegrationManager.generate_integrated_recommendations score
          risk_assessment investment_analysis,
        risk_assessment, investment_analysis, portfolio_impact, conf⟩

/-- The numeric score a branch reports under a key: `none` when the branch
did not answer, the key is absent, or the value is not numeric. -/
def branchScore (branch : Option Json) (key : String) : Option ℚ :=
  match branch with
  | some j =>
    match j.lookup key with
    | some v => v.asNumber
    | none => none
  | none => none

/-- The risk penalty the source subtracts: `(100 - overall_risk_score) *
0.3` when the risk branch answered with that field, 0 otherwise — not
clamped below at zero. -/
def sourceRiskPenalty (risk : Option Json) : ℚ :=
  match branchScore risk "overall_risk_score" with
  | some q => (100 - q) * 0.3
  | none => 0

/-- The merge rule exactly as the claim states it, risk penalty clamped
below at zero (`max(0, 100-riskScore)*0.3`): written from the
specification's words, to be compared with the source computation. -/
def claimIntegratedScore (results : CollabResults) : ℚ :=
  ((branchScore results.investment "overall_score").getD 0) * 0.4 +
  ((branchScore results.portfolio "overall_score").getD 0) * 0.3 -
  (match branchScore results.risk "overall_risk_score" with
   | some q => max 0 (100 - q) * 0.3
   | none => 0)

theorem investmentScoreStep_eq (inv : Option Json) (s t : ℚ)
    (h : investmentScoreStep inv s = some t) :
    t = s + ((branchScore inv "overall_score").getD 0) * 0.4 := by
  unfold investmentScoreStep at h
  unfold branchScore
  cases inv with
  | none => simp_all
  | some j =>
    dsimp only at h ⊢
    cases hv : j.lookup "overall_score" with
    | none => simp_all
    | some v =>
      cases hn : v.asNumber with
      | none => simp_all
      | some q => simp_all

theorem riskScoreStep_eq (risk : Option Json) (s t : ℚ)
    (h : riskScoreStep risk s = some t) :
    t = s - sourceRiskPenalty risk := by
  unfold riskScoreStep at h
  unfold sourceRiskPenalty branchScore
  cases risk with
  | none => simp_all
  | some j =>
    dsimp only at h ⊢
    cases hv : j.lookup "overall_risk_score" with
    | none => simp_all
    | some v =>
      cases hn : v.asNumber with
      | none => simp_all
      | some q => simp_all

theorem portfolioScoreStep_eq (pf : Option Json) (s t : ℚ)
    (h : portfolioScoreStep pf s = some t) :
    t = s + ((branchScore pf "overall_score").getD 0) * 0.3 := by
  unfold portfolioScoreStep at h
  unfold branchScore
  cases pf with
  | none => simp_all
  | some j =>
    dsimp only at h ⊢
    cases hv : j.lookup "overall_score" with
    | none => simp_all
    | some v =>
      cases hn : v.asNumber with
      | none => simp_all
      | some q => simp_all

/-- C3 counterexample: with only a risk result of `overall_risk_score =
120`, the source computes an integrated score of 6 (the unclamped penalty
`(100-120)*0.3 = -6` is subtracted), while the claimed formula with
`max(0, 100-riskScore)` gives 0 — so the claimed equation is false and
the subtracted penalty can be negative. -/
theorem C3_counterexample :
    integratedScore
      ⟨none, some (Json.obj [("overall_risk_score", Json.num 120)]), none⟩ = some 6 ∧
    claimIntegratedScore
      ⟨none, some (Json.obj [("overall_risk_score", Json.num 120)]), none⟩ = 0 ∧
    (6 : ℚ) ≠ 0 := by
  refine ⟨?_, ?_, by norm_num⟩
  · norm_num [integratedScore, investmentScoreStep, riskScoreStep, portfolioScoreStep,
      Json.lookup, lookupKey, Json.asNumber]
  have hmax : max (0 : ℚ) (100 - 120) = 0 := by norm_num
  simp only [claimIntegratedScore, branchScore, Json.lookup, lookupKey, Json.asNumber,
    if_pos rfl, Option.getD_none, hmax]
  norm_num

/-- C3 amended: for every collected result set on which the integration
step does not raise, the integrated score equals the investment
`overall_score` times 0.4 (0 when absent) plus the portfolio
`overall_score` times 0.3, minus the penalty `(100 - overall_risk_score)
* 0.3` when the risk branch answered with that field — the penalty is not
clamped below at zero, so it is negative (raising the score) whenever
`overall_risk_score` exceeds 100. -/
theorem C3_integrated_score (results : CollabResults) (s : ℚ)
    (h : integratedScore results = some s) :
    s = ((branchScore results.investment "overall_score").getD 0) * 0.4 +
        ((branchScore results.portfolio "overall_score").getD 0) * 0.3 -
        sourceRiskPenalty results.risk := by
  unfold integratedScore at h
  cases h1 : investmentScoreStep results.investment 0 with
  | none => rw [h1] at h; simp at h
  | some s1 =>
    rw [h1] at h
    dsimp only at h
    cases h2 : riskScoreStep results.risk s1 with
    | none => rw [h2] at h; simp at h
    | some s2 =>
      rw [h2] at h
      dsimp only at h
      have e1 := investmentScoreStep_eq _ _ _ h1
      have e2 := riskScoreStep_eq _ _ _ h2
      have e3 := portfolioScoreStep_eq _ _ _ h
      rw [e3, e2, e1]
      ring

/-- C3 witness: the amended equation instantiated at the concrete result
set of the aggregation scenario (scores 80 / 20 / 60, integrated score
26). -/
theorem C3_integrated_score_witness :
    integratedScore
      ⟨some (Json.obj [("overall_score", Json.num 80)]),
       some (Json.obj [("overall_risk_score", Json.num 20),
         ("risk_level", Json.str "low")]),
       some (Json.obj [("overall_score", Json.num 60)])⟩ = some 26 ∧
    (26 : ℚ) =
      ((branchScore
        (some (Json.obj [("overall_score", Json.num 80)])) "overall_score").getD 0)
        * 0.4 +
      ((branchScore
        (some (Json.obj [("overall_score", Json.num 60)])) "overall_score").getD 0)
        * 0.3 -
      sourceRiskPenalty
        (some (Json.obj [("overall_risk_score", Json.num 20),
          ("risk_level", Json.str "low")])) :=
  have h : integratedScore
      ⟨some (Json.obj [("overall_score", Json.num 80)]),
       some (Json.obj [("overall_risk_score", Json.num 20),
         ("risk_level", Json.str "low")]),
       some (Json.obj [("overall_score", Json.num 60)])⟩ = some 26 := by
    norm_num [integratedScore, investmentScoreStep, riskScoreStep, portfolioScoreStep,
      Json.lookup, lookupKey, Json.asNumber]
  ⟨h, C3_integrated_score _ 26 h⟩

/-- C4: on the concrete scenario (investment `overall_score` 80, risk
`overall_risk_score` 20 with level "low", portfolio `overall_score` 60)
the integration step computes integrated score 26 and the first generated
recommendation is SELL with HIGH confidence (26 falls below the 30 HOLD
threshold). -/
theorem C4_concrete_scenario :
    (A2AIntegrationManager.integrate_analysis_results "AAPL"
        ⟨2025, 1, 1, 0, 0, 0, 0⟩
        ⟨some (Json.obj [("overall_score", Json.num 80)]),
         some (Json.obj [("overall_risk_score", Json.num 20),
           ("risk_level", Json.str "low")]),
         some (Json.obj [("overall_score", Json.num 60)])⟩).map
      (fun a => (a.integrated_score,
        a.recommendations.head?.map (fun r => (r.action, r.confidence)))) =
      some (26, some (Json.str "SELL", Json.str "HIGH")) := by
  have hscore : integratedScore
      ⟨some (Json.obj [("overall_score", Json.num 80)]),
       some (Json.obj [("overall_risk_score", Json.num 20),
         ("risk_level", Json.str "low")]),
       some (Json.obj [("overall_score", Json.num 60)])⟩ = some 26 := by
    norm_num [integratedScore, investmentScoreStep, riskScoreStep, portfolioScoreStep,
      Json.lookup, lookupKey, Json.asNumber]
  have hconf : A2AIntegrationManager.calculate_confidence_score
      ⟨some (Json.obj [("overall_score", Json.num 80)]),
       some (Json.obj [("overall_risk_score", Json.num 20),
         ("risk_level", Json.str "low")]),
       some (Json.obj [("overall_score", Json.num 60)])⟩ = some 0.5 := by
    simp [A2AIntegrationManager.calculate_confidence_score, CollabResults.items,
      List.foldlM, confidenceStep, lookupKey]
  have h70 : ¬ (26 : ℚ) ≥ 70 := by norm_num
  have h50 : ¬ (26 : ℚ) ≥ 50 := by norm_num
  have h30 : ¬ (26 : ℚ) ≥ 30 := by norm_num
  simp only [A2AIntegrationManager.integrate_analysis_results, hscore, hconf]
  simp [A2AIntegrationManager.generate_integrated_recommendations, Json.lookup,
    lookupKey, CollabResults.agentsUsed, h70, h50, h30]

/-- The per-agent confidence signal: the numeric `confidence_score` when
present, else the coarse mapping of a present `confidence` through the
high/medium/low containment chain on its lowercased `str()` (an unmatched
string maps to 0 but still counts); `none` when the result is not a dict
or carries neither key (such a result contributes nothing). -/
def agentConfidenceSignal (result : Json) : Option ℚ :=
  match result with
  | Json.obj fields =>
    match lookupKey "confidence_score" fields with
    | some v => v.asNumber
    | none =>
      match lookupKey "confidence" fields with
      | some v =>
        some (if strContains "high" (strLower (pyStr v)) then 0.8
          else if strContains "medium" (strLower (pyStr v)) then 0.6
          else if strContains "low" (strLower (pyStr v)) then 0.4
          else 0)
      | none => none
  | _ => none

/-- A result on which the accumulation loop cannot raise: if it carries
`confidence_score` at all, the value is numeric. -/
def confidenceWellTyped (result : Json) : Bool :=
  match result with
  | Json.obj fields =>
    match lookupKey "confidence_score" fields with
    | some v => !v.asNumber.isNone
    | none => true
  | _ => true

/-- The confidence score as the corrected specification states it: 0 on an
empty result set, the arithmetic mean of the per-agent signals when any
agent reported one, and 0.5 when the non-empty result set carries no
signal. -/
def specConfidenceScore (results : CollabResults) : ℚ :=
  if results.items.isEmpty then 0
  else
    let signals := results.items.filterMap agentConfidenceSignal
    if signals.length = 0 then 0.5
    else signals.sum / (signals.length : ℚ)

theorem confidenceStep_signal (acc : ℚ × Nat) (r : Json)
    (hr : confidenceWellTyped r = true) :
    confidenceStep acc r =
      some (match agentConfidenceSignal r with
        | some q => (acc.1 + q, acc.2 + 1)
        | none => acc) := by
  cases r with
  | obj fields =>
    unfold confidenceStep agentConfidenceSignal
    unfold confidenceWellTyped at hr
    dsimp only at hr ⊢
    cases hcs : lookupKey "confidence_score" fields with
    | some v =>
      rw [hcs] at hr
      dsimp only at hr
      cases hn : v.asNumber with
      | none => rw [hn] at hr; simp at hr
      | some q => simp [hcs, hn]
    | none =>
      cases hc : lookupKey "confidence" fields with
      | some v => simp [hcs, hc]
      | none => simp [hcs, hc]
  | null => rfl
  | bool b => rfl
  | num q => rfl
  | str s => rfl
  | arr xs => rfl

theorem confidenceFold_eq (items : List Json) (acc : ℚ × Nat)
    (h : ∀ r ∈ items, confidenceWellTyped r = true) :
    items.foldlM confidenceStep acc =
      some (acc.1 + (items.filterMap agentConfidenceSignal).sum,
            acc.2 + (items.filterMap agentConfidenceSignal).length) := by
  induction items generalizing acc with
  | nil => simp
  | cons r rest ih =>
    have hr : confidenceWellTyped r = true := h r (by simp)
    have hrest : ∀ x ∈ rest, confidenceWellTyped x = true :=
      fun x hx => h x (by simp [hx])
    rw [List.foldlM_cons, confidenceStep_signal acc r hr]
    cases hs : agentConfidenceSignal r with
    | none =>
      simp only [hs, Option.bind_eq_bind, Option.some_bind]
      rw [ih _ hrest]
      simp [List.filterMap_cons, hs]
    | some q =>
      simp only [hs, Option.bind_eq_bind, Option.some_bind]
      rw [ih _ hrest]
      simp only [List.filterMap_cons, hs, List.sum_cons, List.length_cons,
        Option.some.injEq, Prod.mk.injEq]
      constructor
      · ring
      · omega

/-- C5 counterexample: on the empty result set — every branch failed —
`_calculate_confidence_score` returns 0.0, not the claimed default
0.5. -/
theorem C5_counterexample :
    A2AIntegrationManager.calculate_confidence_score ⟨none, none, none⟩ = some 0 ∧
    (0 : ℚ) ≠ 0.5 := by
  constructor
  · rfl
  · norm_num

/-- C5 amended: on any result set whose entries cannot make the loop
raise, the confidence score is the arithmetic mean of the per-agent
signals (numeric `confidence_score`, else the high→0.8 / medium→0.6 /
low→0.4 containment mapping of a present `confidence`, an unmatched
string counting as 0); a non-empty result set with no signal yields 0.5,
and the empty result set yields 0, not 0.5. -/
theorem C5_confidence_mean (results : CollabResults)
    (h : ∀ r ∈ results.items, confidenceWellTyped r = true) :
    A2AIntegrationManager.calculate_confidence_score results =
      some (specConfidenceScore results) := by
  unfold A2AIntegrationManager.calculate_confidence_score specConfidenceScore
  cases he : results.items.isEmpty with
  | true => simp [he]
  | false =>
    simp only [he, Bool.false_eq_true, if_false]
    rw [confidenceFold_eq _ _ h]
    dsimp only
    cases hl : (results.items.filterMap agentConfidenceSignal).length with
    | zero => simp [hl]
    | succ n => simp [hl]

/-- C5 witness: the amended statement at a single agent reporting the
string confidence "HIGH". -/
theorem C5_confidence_mean_witness :
    A2AIntegrationManager.calculate_confidence_score
      ⟨some (Json.obj [("confidence", Json.str "HIGH")]), none, none⟩ =
      some (specConfidenceScore
        ⟨some (Json.obj [("confidence", Json.str "HIGH")]), none, none⟩) :=
  C5_confidence_mean _ (by
    intro r hr
    simp only [CollabResults.items, List.mem_singleton, List.append_nil] at hr
    subst hr
    rfl)

/-- A Pending Request Record: the `request`/`timestamp`/`type` entries set
at creation and the `response`/`error` entries the dispatch handlers may
add later.  The creation instant is carried on the seconds timeline used
by `timedelta` arithmetic. -/
structure PendingRecord where
  request : A2AMessage
  timestamp : Int
  requestType : String
  response : Option Json
  error : Option Json

/-- Python `dict` assignment `d[k] = v`: overwrite in place, else
append. -/
def setKey (k : String) (v : PendingRecord) :
    List (String × PendingRecord) → List (String × PendingRecord)
  | [] => [(k, v)]
  | kv :: rest => if kv.1 = k then (k, v) :: rest else kv :: setKey k v rest

/-- Lookup in the pending-request table. -/
def lookupRecord (k : String) :
    List (String × PendingRecord) → Option PendingRecord
  | [] => none
  | kv :: rest => if kv.1 = k then some kv.2 else lookupRecord k rest

/-- `del d[k]`, a no-op when the key is absent (matching the guarded
deletes of the source). -/
def removeKey (k : String) :
    List (String × PendingRecord) → List (String × PendingRecord)
  | [] => []
  | kv :: rest => if kv.1 = k then rest else kv :: removeKey k rest

/-- Python `timedelta.seconds` of the difference of two instants on the
seconds timeline: the seconds component left after whole days are split
off, normalized into `[0, 86400)` — `10` for a difference of one day and
ten seconds. -/
def timedeltaSeconds (delta : Int) : Int := delta % 86400

/-- `cleanup_expired_requests`: collect the ids of the records whose
`.seconds` age component exceeds 300 (the 5-minute threshold), then
delete them — equivalently, keep exactly the other records. -/
def A2AAdapter.cleanup_expired_requests (current_time : Int)
    (pending : List (String × PendingRecord)) : List (String × PendingRecord) :=
  pending.filter fun kv =>
    if timedeltaSeconds (current_time - kv.2.timestamp) > 300 then false else true

/-- The adapter state the correlation claims need: its identity and the
capability descriptor (`None` until `register_capabilities`).  The
`protocol` field of the source is kept in sync with these by
`register_capabilities`. -/
structure A2AAdapter where
  agent_id : String
  agent_role : AgentRole
  capabilities : Option AgentCapability

/-- The adapter's protocol instance (identity and capabilities as kept in
sync by `__init__` and `register_capabilities`). -/
def A2AAdapter.protocol (a : A2AAdapter) : A2AProtocol :=
  A2AProtocol.mk a.agent_id a.agent_role a.capabilities

/-- `_handle_response`: when the envelope carries a truthy correlation id
matching a pending record, store the payload under the record's
`response` entry — an unconditional overwrite of whatever was there. -/
def A2AAdapter.handle_response (pending : List (String × PendingRecord))
    (message : A2AMessage) : List (String × PendingRecord) :=
  match message.correlation_id with
  | some cid =>
    if cid ≠ "" ∧ (lookupRecord cid pending).isSome then
      pending.map fun kv =>
        if kv.1 = cid then (kv.1, { kv.2 with response := some message.payload })
        else kv
    else pending
  | none => pending

/-- `_handle_error`: like `_handle_response` but storing under the
record's `error` entry. -/
def A2AAdapter.handle_error (pending : List (String × PendingRecord))
    (message : A2AMessage) : List (String × PendingRecord) :=
  match message.correlation_id with
  | some cid =>
    if cid ≠ "" ∧ (lookupRecord cid pending).isSome then
      pending.map fun kv =>
        if kv.1 = cid then (kv.1, { kv.2 with error := some message.payload })
        else kv
    else pending
  | none => pending

/-- Transport activity, in the order it was attempted. -/
inductive TransportEvent where
  | connectAttempt : String → TransportEvent
  | sendAttempt : A2AMessage → TransportEvent

/-- The configuration error `connect_to_registry` raises before touching
the transport. -/
inductive ConfigError where
  | capabilitiesNotRegistered
deriving DecidableEq

/-- `connect_to_registry`: raises the configuration error when no
capabilities are registered — before any transport connect or send; else
connects and, only if the transport connect succeeded, sends the
registration envelope.  The `ok` value lists the transport activity that
took place. -/
def A2AAdapter.connect_to_registry (a : A2AAdapter) (registry_endpoint : String)
    (connectOk : Bool) (message_id : String) (now : PyDateTime) :
    Except ConfigError (List TransportEvent) :=
  match a.capabilities with
  | none => Except.error ConfigError.capabilitiesNotRegistered
  | some caps =>
    if connectOk then
      Except.ok [TransportEvent.connectAttempt registry_endpoint,
        TransportEvent.sendAttempt
          (a.protocol.create_message "registry" MessageType.registration
            caps.asdict Priority.normal none message_id now)]
    else
      Except.ok [TransportEvent.connectAttempt registry_endpoint]

/-- The resolution of a pending request as eventually observed by the
`_wait_for_response` poll loop (it is produced concurrently by the
dispatch handlers): a response payload, an error payload, or nothing
within the 30-second timeout. -/
inductive WaitOutcome where
  | response : Json → WaitOutcome
  | errorReply : Json → WaitOutcome
  | timeout : WaitOutcome

/-- `_wait_for_response`: on a response, delete the record and return the
payload; on an error, delete the record and return `none`; on timeout,
delete the record if still present and return `none`. -/
def A2AAdapter.wait_for_response (pending : List (String × PendingRecord))
    (request_id : String) (outcome : WaitOutcome) :
    Option Json × List (String × PendingRecord) :=
  match outcome with
  | WaitOutcome.response payload => (some payload, removeKey request_id pending)
  | WaitOutcome.errorReply _ => (none, removeKey request_id pending)
  | WaitOutcome.timeout => (none, removeKey request_id pending)

/-- The shared shape of the three `request_*` operations: insert the
pending record (`request`, creation time, type tag), send, and wait only
when the send succeeded; on a failed send return `none` immediately — the
freshly inserted record is not removed on that path. -/
def requestOperation (request_msg : A2AMessage) (request_type : String)
    (pending : List (String × PendingRecord)) (nowSec : Int) (sendOk : Bool)
    (outcome : WaitOutcome) : Option Json × List (String × PendingRecord) :=
  let pending' := setKey request_msg.message_id
    ⟨request_msg, nowSec, request_type, none, none⟩ pending
  if sendOk then
    A2AAdapter.wait_for_response pending' request_msg.message_id outcome
  else
    (none, pending')

/-- `request_stock_analysis`. -/
def A2AAdapter.request_stock_analysis (a : A2AAdapter)
    (pending : List (String × PendingRecord))
    (target_agent_id ticker analysis_type timeframe : String)
    (user_profile : Option Json) (message_id : String) (now : PyDateTime)
    (nowSec : Int) (sendOk : Bool) (outcome : WaitOutcome) :
    Option Json × List (String × PendingRecord) :=
  requestOperation
    (a.protocol.create_stock_analysis_request target_agent_id ticker
      analysis_type timeframe user_profile message_id now)
    "stock_analysis" pending nowSec sendOk outcome

/-- `request_portfolio_analysis`. -/
def A2AAdapter.request_portfolio_analysis (a : A2AAdapter)
    (pending : List (String × PendingRecord))
    (target_agent_id user_id : String) (portfolio_data : Json)
    (analysis_goals : List String) (message_id : String) (now : PyDateTime)
    (nowSec : Int) (sendOk : Bool) (outcome : WaitOutcome) :
    Option Json × List (String × PendingRecord) :=
  requestOperation
    (a.protocol.create_portfolio_analysis_request target_agent_id user_id
      portfolio_data analysis_goals message_id now)
    "portfolio_analysis" pending nowSec sendOk outcome

/-- `request_risk_analysis`. -/
def A2AAdapter.request_risk_analysis (a : A2AAdapter)
    (pending : List (String × PendingRecord))
    (target_agent_id ticker : String) (event_sources : Option (List String))
    (time_horizon : String) (message_id : String) (now : PyDateTime)
    (nowSec : Int) (sendOk : Bool) (outcome : WaitOutcome) :
    Option Json × List (String × PendingRecord) :=
  requestOperation
    (a.protocol.create_risk_analysis_request target_agent_id ticker
      event_sources time_horizon message_id now)
    "risk_analysis" pending nowSec sendOk outcome

/-- C7: the cleanup sweep tests the `timedelta` `.seconds` component,
which wraps at one day: a record aged 86410 seconds (one day and ten
seconds, far above the 5-minute threshold) is kept, while a record aged
400 seconds is removed — the sweep misses day-old records, contrary to
the stated behavior (and to the intent of its own 5-minute comment). -/
theorem C7_cleanup_misses_day_old_records :
    A2AAdapter.cleanup_expired_requests 86410
        [("req-7", ⟨⟨"m-7", "a", "b", MessageType.request, Priority.high,
          ⟨2025, 1, 1, 0, 0, 0, 0⟩, Json.obj [], none, none⟩, 0,
          "stock_analysis", none, none⟩)] =
      [("req-7", ⟨⟨"m-7", "a", "b", MessageType.request, Priority.high,
        ⟨2025, 1, 1, 0, 0, 0, 0⟩, Json.obj [], none, none⟩, 0,
        "stock_analysis", none, none⟩)] ∧
    (86410 : Int) - 0 > 300 ∧
    A2AAdapter.cleanup_expired_requests 400
        [("req-7", ⟨⟨"m-7", "a", "b", MessageType.request, Priority.high,
          ⟨2025, 1, 1, 0, 0, 0, 0⟩, Json.obj [], none, none⟩, 0,
          "stock_analysis", none, none⟩)] = [] := by
  refine ⟨?_, by decide, ?_⟩ <;> rfl

theorem lookupRecord_map_update (k : String) (f : PendingRecord → PendingRecord)
    (l : List (String × PendingRecord)) :
    lookupRecord k (l.map fun kv => if kv.1 = k then (kv.1, f kv.2) else kv) =
      (lookupRecord k l).map f := by
  induction l with
  | nil => rfl
  | cons kv rest ih =>
    by_cases hk : kv.1 = k
    · simp [lookupRecord, hk]
    · simp [lookupRecord, hk, ih]

/-- C8 counterexample: a record already resolved with response payload 1
is overwritten when a second Response with the same correlation id and
payload 2 is dispatched — the stored payload does not survive, refuting
the at-most-once claim. -/
theorem C8_counterexample :
    (lookupRecord "m1"
      (A2AAdapter.handle_response
        [("m1", ⟨⟨"m1", "inv", "risk", MessageType.request, Priority.high,
          ⟨2025, 1, 1, 0, 0, 0, 0⟩, Json.obj [], none, none⟩, 0,
          "stock_analysis", some (Json.num 1), none⟩)]
        ⟨"m2", "risk", "inv", MessageType.response, Priority.high,
          ⟨2025, 1, 1, 0, 0, 5, 0⟩, Json.num 2, some "m1", none⟩)).map
      PendingRecord.response = some (some (Json.num 2)) ∧
    ¬ (lookupRecord "m1"
      (A2AAdapter.handle_response
        [("m1", ⟨⟨"m1", "inv", "risk", MessageType.request, Priority.high,
          ⟨2025, 1, 1, 0, 0, 0, 0⟩, Json.obj [], none, none⟩, 0,
          "stock_analysis", some (Json.num 1), none⟩)]
        ⟨"m2", "risk", "inv", MessageType.response, Priority.high,
          ⟨2025, 1, 1, 0, 0, 5, 0⟩, Json.num 2, some "m1", none⟩)).map
      PendingRecord.response = some (some (Json.num 1)) := by
  have hv : (lookupRecord "m1"
      (A2AAdapter.handle_response
        [("m1", ⟨⟨"m1", "inv", "risk", MessageType.request, Priority.high,
          ⟨2025, 1, 1, 0, 0, 0, 0⟩, Json.obj [], none, none⟩, 0,
          "stock_analysis", some (Json.num 1), none⟩)]
        ⟨"m2", "risk", "inv", MessageType.response, Priority.high,
          ⟨2025, 1, 1, 0, 0, 5, 0⟩, Json.num 2, some "m1", none⟩)).map
      PendingRecord.response = some (some (Json.num 2)) := by rfl
  refine ⟨hv, ?_⟩
  intro h
  rw [hv] at h
  simp only [Option.some.injEq, Json.num.injEq] at h
  norm_num at h

/-- C8 amended: resolution is last-writer-wins, not at-most-once — for
every pending record matching a dispatched Response (resp. Error) with a
truthy correlation id, the record's stored response (error) payload is
overwritten with the newly dispatched payload. -/
theorem C8_resolution_overwrites (pending : List (String × PendingRecord))
    (cid : String) (rec : PendingRecord) (message : A2AMessage)
    (hc : message.correlation_id = some cid) (hne : cid ≠ "")
    (hl : lookupRecord cid pending = some rec) :
    lookupRecord cid (A2AAdapter.handle_response pending message) =
      some { rec with response := some message.payload } ∧
    lookupRecord cid (A2AAdapter.handle_error pending message) =
      some { rec with error := some message.payload } := by
  unfold A2AAdapter.handle_response A2AAdapter.handle_error
  rw [hc]
  have hcond : cid ≠ "" ∧ (lookupRecord cid pending).isSome = true :=
    ⟨hne, by rw [hl]; rfl⟩
  constructor
  · dsimp only
    rw [if_pos hcond,
      lookupRecord_map_update cid
        (fun r => { r with response := some message.payload }) pending, hl]
    rfl
  · dsimp only
    rw [if_pos hcond,
      lookupRecord_map_update cid
        (fun r => { r with error := some message.payload }) pending, hl]
    rfl

/-- C8 witness: the overwrite at a concrete table and a concrete second
Response. -/
theorem C8_resolution_overwrites_witness :
    lookupRecord "m1"
      (A2AAdapter.handle_response
        [("m1", ⟨⟨"m1", "inv", "risk", MessageType.request, Priority.high,
          ⟨2025, 1, 1, 0, 0, 0, 0⟩, Json.obj [], none, none⟩, 0,
          "stock_analysis", some (Json.num 1), none⟩)]
        ⟨"m3", "risk", "inv", MessageType.response, Priority.high,
          ⟨2025, 1, 1, 0, 0, 6, 0⟩, Json.num 3, some "m1", none⟩) =
      some ⟨⟨"m1", "inv", "risk", MessageType.request, Priority.high,
        ⟨2025, 1, 1, 0, 0, 0, 0⟩, Json.obj [], none, none⟩, 0,
        "stock_analysis", some (Json.num 3), none⟩ ∧
    lookupRecord "m1"
      (A2AAdapter.handle_error
        [("m1", ⟨⟨"m1", "inv", "risk", MessageType.request, Priority.high,
          ⟨2025, 1, 1, 0, 0, 0, 0⟩, Json.obj [], none, none⟩, 0,
          "stock_analysis", some (Json.num 1), none⟩)]
        ⟨"m3", "risk", "inv", MessageType.response, Priority.high,
          ⟨2025, 1, 1, 0, 0, 6, 0⟩, Json.num 3, some "m1", none⟩) =
      some ⟨⟨"m1", "inv", "risk", MessageType.request, Priority.high,
        ⟨2025, 1, 1, 0, 0, 0, 0⟩, Json.obj [], none, none⟩, 0,
        "stock_analysis", some (Json.num 1), some (Json.num 3)⟩ :=
  C8_resolution_overwrites
    [("m1", ⟨⟨"m1", "inv", "risk", MessageType.request, Priority.high,
      ⟨2025, 1, 1, 0, 0, 0, 0⟩, Json.obj [], none, none⟩, 0,
      "stock_analysis", some (Json.num 1), none⟩)]
    "m1"
    ⟨⟨"m1", "inv", "risk", MessageType.request, Priority.high,
      ⟨2025, 1, 1, 0, 0, 0, 0⟩, Json.obj [], none, none⟩, 0,
      "stock_analysis", some (Json.num 1), none⟩
    ⟨"m3", "risk", "inv", MessageType.response, Priority.high,
      ⟨2025, 1, 1, 0, 0, 6, 0⟩, Json.num 3, some "m1", none⟩
    rfl (by decide) rfl

/-- C9: calling `connect_to_registry` on an adapter whose capabilities
were never registered fails with the specific configuration error — and
not with any transport outcome: no connect or send is attempted. -/
theorem C9_connect_requires_capabilities (a : A2AAdapter)
    (registry_endpoint message_id : String) (connectOk : Bool)
    (now : PyDateTime) (h : a.capabilities = none) :
    a.connect_to_registry registry_endpoint connectOk message_id now =
      Except.error ConfigError.capabilitiesNotRegistered ∧
    ∀ events : List TransportEvent,
      a.connect_to_registry registry_endpoint connectOk message_id now ≠
        Except.ok events := by
  unfold A2AAdapter.connect_to_registry
  rw [h]
  constructor
  · rfl
  · intro events hev
    simp at hev

/-- C9 witness: the configuration failure at a concrete unregistered
adapter. -/
theorem C9_connect_requires_capabilities_witness :
    (A2AAdapter.mk "investment_agent_001" AgentRole.investment_analyst
        none).connect_to_registry "ws://localhost:8765/registry" true "m-9"
        ⟨2025, 1, 1, 0, 0, 0, 0⟩ =
      Except.error ConfigError.capabilitiesNotRegistered ∧
    ∀ events : List TransportEvent,
      (A2AAdapter.mk "investment_agent_001" AgentRole.investment_analyst
        none).connect_to_registry "ws://localhost:8765/registry" true "m-9"
        ⟨2025, 1, 1, 0, 0, 0, 0⟩ ≠ Except.ok events :=
  C9_connect_requires_capabilities _ _ _ _ _ rfl

theorem lookupRecord_setKey (k : String) (v : PendingRecord)
    (l : List (String × PendingRecord)) :
    lookupRecord k (setKey k v l) = some v := by
  induction l with
  | nil => simp [setKey, lookupRecord]
  | cons kv rest ih =>
    by_cases hk : kv.1 = k
    · simp [setKey, hk, lookupRecord]
    · simp [setKey, hk, lookupRecord, ih]

/-- C10: when the transport send returns false, each of the three request
operations returns `none` without waiting, and the pending record it
inserted for the new message id is still in the table, unremoved. -/
theorem C10_send_failure_keeps_record (a : A2AAdapter)
    (pending : List (String × PendingRecord))
    (target_agent_id ticker analysis_type timeframe user_id : String)
    (user_profile : Option Json) (portfolio_data : Json)
    (analysis_goals : List String) (event_sources : Option (List String))
    (time_horizon message_id : String) (now : PyDateTime) (nowSec : Int)
    (outcome : WaitOutcome) :
    (a.request_stock_analysis pending target_agent_id ticker analysis_type
        timeframe user_profile message_id now nowSec false outcome).1 = none ∧
    lookupRecord message_id
      (a.request_stock_analysis pending target_agent_id ticker analysis_type
        timeframe user_profile message_id now nowSec false outcome).2 =
      some ⟨a.protocol.create_stock_analysis_request target_agent_id ticker
        analysis_type timeframe user_profile message_id now, nowSec,
        "stock_analysis", none, none⟩ ∧
    (a.request_portfolio_analysis pending target_agent_id user_id
        portfolio_data analysis_goals message_id now nowSec false outcome).1 =
      none ∧
    lookupRecord message_id
      (a.request_portfolio_analysis pending target_agent_id user_id
        portfolio_data analysis_goals message_id now nowSec false outcome).2 =
      some ⟨a.protocol.create_portfolio_analysis_request target_agent_id user_id
        portfolio_data analysis_goals message_id now, nowSec,
        "portfolio_analysis", none, none⟩ ∧
    (a.request_risk_analysis pending target_agent_id ticker event_sources
        time_horizon message_id now nowSec false outcome).1 = none ∧
    lookupRecord message_id
      (a.request_risk_analysis pending target_agent_id ticker event_sources
        time_horizon message_id now nowSec false outcome).2 =
      some ⟨a.protocol.create_risk_analysis_request target_agent_id ticker
        event_sources time_horizon message_id now, nowSec,
        "risk_analysis", none, none⟩ := by
  refine ⟨rfl, ?_, rfl, ?_, rfl, ?_⟩ <;>
    simp [A2AAdapter.request_stock_analysis, A2AAdapter.request_portfolio_analysis,
      A2AAdapter.request_risk_analysis, requestOperation, lookupRecord_setKey,
      A2AProtocol.create_stock_analysis_request,
      A2AProtocol.create_portfolio_analysis_request,
      A2AProtocol.create_risk_analysis_request, A2AProtocol.create_message]
